import Mathlib

/-!
Verification of the Pix3D-to-TFRecord conversion pipeline
(official/vision/beta/projects/mesh_rcnn/data/create_pix3d_tf_record.py),
as a shallow embedding in Lean.

Modelling conventions:
* Python / numpy floating point numbers are modelled as exact rationals.
* A numpy ndarray is modelled by its shape together with a total function from
  multi-indices to entry values; entries outside the shape are irrelevant junk.
* Fallible Python code (raising exceptions) is modelled in the Except monad,
  with the exception rendered as a message string.
* File system reads are passed in explicitly (the file contents stand for what
  the corresponding open/read call returns).
-/

/-- A numpy ndarray: a shape (list of dimension sizes, one per axis) together
with the entries, read through a total function from multi-indices.  Entry
values are modelled as rationals. -/
structure NDArray where
  shape : List Nat
  data : List Nat → ℚ

/-- All multi-indices of a given shape, enumerated in row-major (C) order,
which is the order numpy argwhere reports occupied positions in. -/
def allIndices : List Nat → List (List Nat)
  | [] => [[]]
  | n :: rest => ((List.range n).map (fun i => (allIndices rest).map (fun ix => i :: ix))).flatten

/-- Model of numpy argwhere applied to the elementwise comparison a > 0:
the list of multi-indices, in row-major order, where the entry is strictly
positive. -/
def np_argwhere (a : NDArray) : List (List Nat) :=
  (allIndices a.shape).filter (fun ix => 0 < a.data ix)

/-- Model of numpy transpose with the axis list that swaps axes 1 and 2
(as built inside numpy rot90 for axes=(1,2)).  On arrays of rank < 3 the
rot90 wrapper below never reaches this operation. -/
def np_transpose_12 (a : NDArray) : NDArray :=
  match a.shape with
  | s0 :: s1 :: s2 :: rest =>
    { shape := s0 :: s2 :: s1 :: rest,
      data := fun ix =>
        match ix with
        | i0 :: i1 :: i2 :: irest => a.data (i0 :: i2 :: i1 :: irest)
        | _ => 0 }
  | _ => a

/-- Model of numpy flip along axis 1. -/
def np_flip_axis1 (a : NDArray) : NDArray :=
  match a.shape with
  | s0 :: s1 :: s2 :: rest =>
    { shape := s0 :: s1 :: s2 :: rest,
      data := fun ix =>
        match ix with
        | i0 :: i1 :: i2 :: irest => a.data (i0 :: (s1 - 1 - i1) :: i2 :: irest)
        | _ => 0 }
  | _ => a

/-- Model of numpy flip along axis 2. -/
def np_flip_axis2 (a : NDArray) : NDArray :=
  match a.shape with
  | s0 :: s1 :: s2 :: rest =>
    { shape := s0 :: s1 :: s2 :: rest,
      data := fun ix =>
        match ix with
        | i0 :: i1 :: i2 :: irest => a.data (i0 :: i1 :: (s2 - 1 - i2) :: irest)
        | _ => 0 }
  | _ => a

/-- A single 90 degree rotation in the plane of axes 1 and 2: numpy rot90 with
k = 1 and axes = (1, 2), which is transpose of the flip along axis 2. -/
def np_rot90_once (a : NDArray) : NDArray :=
  np_transpose_12 (np_flip_axis2 a)

/-- Model of numpy rot90 with axes = (1, 2):
a ValueError when one of the requested axes is out of range, i.e. when the
array rank is below 3; otherwise the k mod 4 dispatch of the numpy
implementation (k = 1: transpose of flip axis 2; k = 2: both flips;
k = 3: flip axis 2 of transpose). -/
def np_rot90_axes12 (a : NDArray) (k : Nat) : Except String NDArray :=
  if a.shape.length < 3 then
    Except.error "ValueError: Axes=(1,2) out of range"
  else
    match k % 4 with
    | 0 => Except.ok a
    | 1 => Except.ok (np_transpose_12 (np_flip_axis2 a))
    | 2 => Except.ok (np_flip_axis2 (np_flip_axis1 a))
    | _ => Except.ok (np_flip_axis2 (np_transpose_12 a))

/-- Python dictionary lookup d[key]; a KeyError when the key is absent.  Used
for the dictionary that scipy.io.loadmat returns. -/
def dictGet (d : List (String × NDArray)) (key : String) : Except String NDArray :=
  match d.find? (fun p => p.1 == key) with
  | Option.some p => Except.ok p.2
  | Option.none => Except.error ("KeyError: " ++ key)

/-- Embedding of parse_voxel_file.  The scipy.io.loadmat read is lifted to the
caller: the argument is the dictionary that loadmat returned for the given
file.  The function takes the array under the key "voxel", rotates it with
numpy rot90 (k = 3, axes = (1, 2)), and returns the argwhere indices of the
strictly positive entries together with the rotated array's shape as a list. -/
def parse_voxel_file (mat : List (String × NDArray)) :
    Except String (List (List Nat) × List Nat) := do
  let voxel0 ← dictGet mat "voxel"
  let voxel ← np_rot90_axes12 voxel0 3
  let voxel_indices := np_argwhere voxel
  let voxel_shape := voxel.shape
  return (voxel_indices, voxel_shape)

/-- A Python-level value of the kinds that reach convert_to_feature.
Python bool is not modelled (no call site passes one).  The constructor
PyVal.other stands for a value of any other Python type, carrying that
type's name. -/
inductive PyVal where
  | int (n : ℤ)
  | float (q : ℚ)
  | bytes (bs : List Nat)
  | str (s : String)
  | list (xs : List PyVal)
  | ndarray (a : NDArray)
  | none
  | other (typeName : String)

/-- A byte string stored in a bytes feature: either raw bytes, the UTF-8
encoding of a text string, or the serialized-tensor byte blob that
tf.io.serialize_tensor produces for a value (kept opaque, carrying the
serialized value so that shape and element type are preserved). -/
inductive BytesVal where
  | raw (bs : List Nat)
  | utf8 (s : String)
  | serializedTensor (v : PyVal)

/-- A tf.train.Feature: exactly one of the three typed value lists, or the
empty feature tf.train.Feature() with no field set.  Float features hold
float32 values, modelled as exact rationals. -/
inductive Feature where
  | int64List (xs : List ℤ)
  | floatList (xs : List ℚ)
  | bytesList (xs : List BytesVal)
  | empty

mutual

/-- The shape that tf.convert_to_tensor assigns to a nested value, or none
when the nesting is ragged (tf.convert_to_tensor raises in that case).
Element-type promotion inside a rectangular nest is not modelled further. -/
def tensorShape : PyVal → Option (List Nat)
  | PyVal.int _ => Option.some []
  | PyVal.float _ => Option.some []
  | PyVal.bytes _ => Option.some []
  | PyVal.str _ => Option.some []
  | PyVal.list xs =>
    match tensorShapeList xs with
    | Option.none => Option.none
    | Option.some [] => Option.some [0]
    | Option.some (s :: rest) =>
      if rest.all (fun t => t == s) then Option.some (xs.length :: s) else Option.none
  | PyVal.ndarray a => Option.some a.shape
  | PyVal.none => Option.none
  | PyVal.other _ => Option.none

/-- Shapes of the elements of a list, or none as soon as one element is not
convertible. -/
def tensorShapeList : List PyVal → Option (List (List Nat))
  | [] => Option.some []
  | x :: xs =>
    match tensorShape x, tensorShapeList xs with
    | Option.some s, Option.some ss => Option.some (s :: ss)
    | _, _ => Option.none
end

/-- Model of tf.io.serialize_tensor(tf.convert_to_tensor(value)).numpy():
an opaque byte blob carrying the value, or a conversion error when the value
does not form a rectangular tensor. -/
def serialize_tensor (v : PyVal) : Except String BytesVal :=
  match tensorShape v with
  | Option.some _ => Except.ok (BytesVal.serializedTensor v)
  | Option.none => Except.error "ValueError: cannot convert value to a tensor"

/-- Truncation of a rational toward zero: the conversion a numpy astype cast
from a floating value to int64 performs. -/
def ratTrunc (q : ℚ) : ℤ := q.num / (q.den : ℤ)

/-- Casting one element to int64, as np.asarray(...).astype(np.int64) does
elementwise on numeric input.  Non-numeric elements are a cast error. -/
def np_int64_cast : PyVal → Except String ℤ
  | PyVal.int n => Except.ok n
  | PyVal.float q => Except.ok (ratTrunc q)
  | _ => Except.error "ValueError: could not cast element to int64"

/-- Model of np.asarray(value).astype(np.int64).reshape(-1) on the flat
numeric lists and scalars this pipeline passes. -/
def np_asarray_int64 : PyVal → Except String (List ℤ)
  | PyVal.list xs => xs.mapM np_int64_cast
  | v => (np_int64_cast v).map (fun n => [n])

/-- Casting one element to float32 (values modelled as exact rationals). -/
def np_float32_cast : PyVal → Except String ℚ
  | PyVal.int n => Except.ok (n : ℚ)
  | PyVal.float q => Except.ok q
  | _ => Except.error "ValueError: could not cast element to float32"

/-- Model of np.asarray(value).astype(np.float32).reshape(-1) on the flat
numeric lists and scalars this pipeline passes. -/
def np_asarray_float32 : PyVal → Except String (List ℚ)
  | PyVal.list xs => xs.mapM np_float32_cast
  | v => (np_float32_cast v).map (fun q => [q])

/-- One element of a bytes list: tf.train.BytesList requires every element to
be a byte string. -/
def expectBytes : PyVal → Except String BytesVal
  | PyVal.bytes bs => Except.ok (BytesVal.raw bs)
  | _ => Except.error "TypeError: bytes expected in list"

/-- The element the type inference of convert_to_feature inspects:
value[0] when the value is a list (an IndexError on the empty list),
the value itself otherwise. -/
def firstElement : PyVal → Except String PyVal
  | PyVal.list [] => Except.error "IndexError: list index out of range"
  | PyVal.list (x :: _) => Except.ok x
  | v => Except.ok v

/-- The isinstance chain of convert_to_feature, mapping the inspected element
to the base value_type string, in the source's order of tests: bytes, int,
float, str, list, ndarray, None; any other type is a ValueError. -/
def inferBaseType : PyVal → Except String String
  | PyVal.bytes _ => Except.ok "bytes"
  | PyVal.int _ => Except.ok "int64"
  | PyVal.float _ => Except.ok "float"
  | PyVal.str _ => Except.ok "str"
  | PyVal.list _ => Except.ok "2d"
  | PyVal.ndarray _ => Except.ok "ndarray"
  | PyVal.none => Except.ok "none"
  | PyVal.other typeName =>
    Except.error ("ValueError: Cannot convert type " ++ typeName ++ " to feature")

/-- Whether the Python value is a list (isinstance(value, list)). -/
def pyIsList : PyVal → Bool
  | PyVal.list _ => true
  | _ => false

/-- The value_type convert_to_feature infers when none is given: the base
type of value[0] (of the value itself when not a list), suffixed with _list
when the value is a list. -/
def inferred_value_type (value : PyVal) : Except String String := do
  let element ← firstElement value
  let base ← inferBaseType element
  return (if pyIsList value then base ++ "_list" else base)

/-- The value_type dispatch chain of convert_to_feature (the if/elif ladder
over the value_type string), producing the encoded feature. -/
def convert_with_type (value : PyVal) (value_type : String) : Except String Feature :=
  if value_type == "int64" then
    match value with
    | PyVal.int n => Except.ok (Feature.int64List [n])
    | _ => Except.error "TypeError: an integer is required"
  else if value_type == "int64_list" then
    (np_asarray_int64 value).map Feature.int64List
  else if value_type == "float" then
    match value with
    | PyVal.float q => Except.ok (Feature.floatList [q])
    | PyVal.int n => Except.ok (Feature.floatList [(n : ℚ)])
    | _ => Except.error "TypeError: a float is required"
  else if value_type == "float_list" then
    (np_asarray_float32 value).map Feature.floatList
  else if value_type == "bytes" then
    match value with
    | PyVal.bytes bs => Except.ok (Feature.bytesList [BytesVal.raw bs])
    | _ => Except.error "TypeError: bytes required"
  else if value_type == "bytes_list" then
    match value with
    | PyVal.list xs => (xs.mapM expectBytes).map Feature.bytesList
    | _ => Except.error "TypeError: a list of bytes is required"
  else if value_type == "str" then
    match value with
    | PyVal.str s => Except.ok (Feature.bytesList [BytesVal.utf8 s])
    | _ => Except.error "AttributeError: value has no attribute encode"
  else if value_type == "2d_list" then
    (serialize_tensor value).map (fun b => Feature.bytesList [b])
  else if value_type == "ndarray" then
    (serialize_tensor value).map (fun b => Feature.bytesList [b])
  else if value_type == "none" then
    Except.ok Feature.empty
  else
    Except.error ("ValueError: Unknown value_type parameter - " ++ value_type)

/-- Embedding of convert_to_feature: infer the value_type when none is given
(inspecting value[0] for lists), then dispatch on the value_type string. -/
def convert_to_feature (value : PyVal) (value_type : Option String) :
    Except String Feature :=
  match value_type with
  | Option.none => do
    let t ← inferred_value_type value
    convert_with_type value t
  | Option.some t => convert_with_type value t

/-- Whitespace as stripped by the Python float and int constructors. -/
def isPySpace (c : Char) : Bool :=
  c == ' ' || c == '\t' || c == '\n' || c == '\r' || c == '\x0b' || c == '\x0c'

/-- An optional leading sign: the sign factor and the remaining characters. -/
def parseSign : List Char → ℤ × List Char
  | '+' :: rest => (1, rest)
  | '-' :: rest => (-1, rest)
  | cs => (1, cs)

/-- The longest digit run at the front, and the rest. -/
def takeDigits : List Char → List Char × List Char
  | [] => ([], [])
  | c :: rest =>
    if c.isDigit then
      ((takeDigits rest).1.cons c, (takeDigits rest).2)
    else
      ([], c :: rest)

/-- The natural number a digit run denotes (zero for the empty run). -/
def natOfDigits (ds : List Char) : ℕ :=
  ds.foldl (fun a c => 10 * a + (c.toNat - 48)) 0

/-- Python str.split with an explicit one-character separator, on the
character list of the string: splitting yields the (possibly empty) runs
between separator occurrences. -/
def splitOnChar (sep : Char) : List Char → List (List Char)
  | [] => [[]]
  | c :: cs =>
    match splitOnChar sep cs with
    | [] => [[c]]
    | t :: ts => if c == sep then [] :: t :: ts else (c :: t) :: ts

/-- Model of the Python float constructor on decimal notation: optional
surrounding whitespace, optional sign, digits with an optional fractional
part (at least one digit overall), and an optional exponent.  The inf/nan
spellings and underscore digit separators are not modelled; no token of a
mesh file uses them. -/
def pyFloat? (cs : List Char) : Option ℚ :=
  let cs0 := cs.dropWhile isPySpace
  let sc := parseSign cs0
  let ip := takeDigits sc.2
  let fp :=
    match ip.2 with
    | '.' :: rest => takeDigits rest
    | _ => ([], ip.2)
  if ip.1.isEmpty && fp.1.isEmpty then Option.none
  else
    let mantissa : ℚ :=
      sc.1 * ((natOfDigits ip.1 : ℚ) + (natOfDigits fp.1 : ℚ) / (10 : ℚ) ^ fp.1.length)
    match fp.2 with
    | [] => Option.some mantissa
    | c :: rest =>
      if c == 'e' || c == 'E' then
        let esc := parseSign rest
        let ed := takeDigits esc.2
        if ed.1.isEmpty then Option.none
        else if (ed.2.dropWhile isPySpace).isEmpty then
          Option.some (mantissa * (10 : ℚ) ^ (esc.1 * (natOfDigits ed.1 : ℤ)))
        else Option.none
      else if ((c :: rest).dropWhile isPySpace).isEmpty then Option.some mantissa
      else Option.none

/-- Model of the Python int constructor on decimal notation: optional
surrounding whitespace, optional sign, at least one digit. -/
def pyInt? (cs : List Char) : Option ℤ :=
  let cs0 := cs.dropWhile isPySpace
  let sc := parseSign cs0
  let ds := takeDigits sc.2
  if ds.1.isEmpty then Option.none
  else if (ds.2.dropWhile isPySpace).isEmpty then
    Option.some (sc.1 * (natOfDigits ds.1 : ℤ))
  else Option.none

/-- Whether a line of the mesh file is a vertex line: its first two
characters are the letter v and a space. -/
def isVertexLine (l : String) : Bool := l.take 2 == "v "

/-- Whether a line of the mesh file is a face line: its first two characters
are the letter f and a space. -/
def isFaceLine (l : String) : Bool := l.take 2 == "f "

/-- The tokens of a vertex or face line: the line after its two-character
tag, split on single spaces (Python str.split with an explicit space
separator, which yields empty tokens around repeated spaces). -/
def lineTokens (l : String) : List (List Char) := splitOnChar ' ' (l.drop 2).data

/-- The sub-token before the first slash of a face group
(Python f.split("/")[0]; str.split always yields a first part). -/
def faceFirstIndex (t : List Char) : List Char := (splitOnChar '/' t).headD t

/-- The loop body of the token conversion loops: convert each element in
order, stopping at the first failure (the first raised exception). -/
def exceptMapM {α β : Type} (f : α → Except String β) : List α → Except String (List β)
  | [] => Except.ok []
  | t :: ts =>
    match f t with
    | Except.error e => Except.error e
    | Except.ok b =>
      match exceptMapM f ts with
      | Except.error e => Except.error e
      | Except.ok bs => Except.ok (b :: bs)

/-- One vertex token converted by the Python float constructor, a
ValueError when it is not a number. -/
def floatTokenToExcept (t : List Char) : Except String ℚ :=
  match pyFloat? t with
  | Option.some q => Except.ok q
  | Option.none =>
    Except.error ("ValueError: could not convert string to float: " ++ String.mk t)

/-- One face token: the part before the first slash converted by the Python
int constructor, a ValueError when it is not an integer. -/
def faceTokenToExcept (t : List Char) : Except String ℤ :=
  match pyInt? (faceFirstIndex t) with
  | Option.some n => Except.ok n
  | Option.none =>
    Except.error ("ValueError: invalid literal for int: " ++ String.mk (faceFirstIndex t))

/-- One vertex line parsed: each token converted by the Python float
constructor, a ValueError on the first token that is not a number. -/
def parseVertexLine (l : String) : Except String (List ℚ) :=
  exceptMapM floatTokenToExcept (lineTokens l)

/-- One face line parsed: for each token, the part before the first slash
converted by the Python int constructor, a ValueError on the first group
whose leading part is not an integer. -/
def parseFaceLine (l : String) : Except String (List ℤ) :=
  exceptMapM faceTokenToExcept (lineTokens l)

/-- The loop of parse_obj_file over the lines read from the mesh file:
a line whose first two characters are "v " contributes one vertex, a line
whose first two characters are "f " contributes one face, in file order;
every other line is ignored. -/
def parse_obj_lists (lines : List String) :
    Except String (List (List ℚ) × List (List ℤ)) :=
  match lines with
  | [] => Except.ok ([], [])
  | l :: ls =>
    if isVertexLine l then do
      let v ← parseVertexLine l
      let (vs, fs) ← parse_obj_lists ls
      return (v :: vs, fs)
    else if isFaceLine l then do
      let f ← parseFaceLine l
      let (vs, fs) ← parse_obj_lists ls
      return (vs, f :: fs)
    else parse_obj_lists ls

/-- Model of np.array on a list of same-length rows (the final conversion of
parse_obj_file): a rank-2 array whose rows are the given lists; np.array of
the empty list is the empty rank-1 array. -/
def np_array_2d (xss : List (List ℚ)) : NDArray :=
  match xss with
  | [] => { shape := [0], data := fun _ => 0 }
  | x :: _ =>
    { shape := [xss.length, x.length],
      data := fun ix =>
        match ix with
        | [i, j] => ((xss.getD i []).getD j 0)
        | _ => 0 }

/-- Embedding of parse_obj_file.  The file read is lifted to the caller: the
argument is the list of lines of the mesh file.  The vertex and face lists
collected by the loop are returned as numpy arrays (as Python values, the
form in which create_tf_example passes them on). -/
def parse_obj_file (lines : List String) : Except String (PyVal × PyVal) := do
  let (vertices, faces) ← parse_obj_lists lines
  return (PyVal.ndarray (np_array_2d vertices),
          PyVal.ndarray (np_array_2d (faces.map (fun f => f.map (fun n => (n : ℚ))))))

/-- An entry of the feature dictionary built by create_tf_example: either a
tf.train.Feature, or a raw Python value inserted without encoding (the
source inserts the class label this way). -/
inductive DictVal where
  | feat (f : Feature)
  | raw (v : PyVal)

/-- Python dict.update on an association list: entries of the update replace
entries of the same key and are appended after the remaining ones. -/
def dictUpdate (d new : List (String × DictVal)) : List (String × DictVal) :=
  d.filter (fun p => !(new.any (fun q => q.1 == p.1))) ++ new

/-- Python dict lookup, as an Option (keys in these dictionaries are
unique). -/
def dictLookup (d : List (String × DictVal)) (key : String) : Option DictVal :=
  (d.find? (fun p => p.1 == key)).map Prod.snd

/-- Model of the tf.train.Features protobuf constructor over the assembled
dictionary: every entry must be a tf.train.Feature message; a raw Python
value among the entries is a TypeError. -/
def toFeatures (d : List (String × DictVal)) :
    Except String (List (String × Feature)) :=
  d.mapM (fun p =>
    match p.2 with
    | DictVal.feat f => Except.ok (p.1, f)
    | DictVal.raw _ =>
      Except.error ("TypeError: Features entry at key " ++ p.1 ++ " is not a Feature"))

/-- Model of os.path.join for a directory and a relative path. -/
def joinPath (dir file : String) : String := dir ++ "/" ++ file

/-- Whether the needle occurs as a contiguous run inside the haystack. -/
def containsSub (needle : List Char) : List Char → Bool
  | [] => needle.isEmpty
  | c :: cs => needle.isPrefixOf (c :: cs) || containsSub needle cs

/-- Python substring membership needle in haystack. -/
def pyIn (needle haystack : String) : Bool :=
  containsSub needle.data haystack.data

/-- Modelled from the spec: image_info_to_feature_dict lives in
official/vision/data/tfrecord_lib.py, which is part of this repository but
not among the given sources.  Per section 6 of the spec it contributes the
standard image-metadata fields image/encoded, image/height, image/width,
image/filename, image/source_id (with the image format alongside).  None of
its keys collide with the fields create_tf_example adds afterwards. -/
def image_info_to_feature_dict (height width : ℚ) (filename : String)
    (image_id : ℤ) (encoded_img : List Nat) (image_format : String) :
    List (String × DictVal) :=
  [("image/height", DictVal.feat (Feature.int64List [ratTrunc height])),
   ("image/width", DictVal.feat (Feature.int64List [ratTrunc width])),
   ("image/filename", DictVal.feat (Feature.bytesList [BytesVal.utf8 filename])),
   ("image/source_id", DictVal.feat (Feature.bytesList [BytesVal.utf8 (toString image_id)])),
   ("image/encoded", DictVal.feat (Feature.bytesList [BytesVal.raw encoded_img])),
   ("image/format", DictVal.feat (Feature.bytesList [BytesVal.utf8 image_format]))]

/-- The argwhere index list as the int64 ndarray that parse_voxel_file
returns in Python (one row per occupied cell). -/
def np_indices_array (rows : List (List Nat)) : NDArray :=
  { shape := [rows.length, (rows.headD []).length],
    data := fun ix =>
      match ix with
      | [i, j] => (((rows.getD i []).getD j 0 : ℕ) : ℚ)
      | _ => 0 }

/-- The annotation dictionary passed to create_tf_example, with the fields
the function reads.  img_size holds (height, width), bbox holds
(xmin, ymin, xmax, ymax) in pixel space; numbers are modelled as rationals.
The category field is kept as a raw Python value, exactly as the source
inserts it. -/
structure AnnotationData where
  img : String
  img_size : ℚ × ℚ
  image_id : ℤ
  pix3d_dir : String
  mask : String
  model : String
  voxel : String
  rot_mat : PyVal
  trans_mat : PyVal
  focal_length : ℚ
  bbox : ℚ × ℚ × ℚ × ℚ
  category : PyVal

/-- The file system create_tf_example reads through: raw byte reads (image
and mask), line reads (the mesh file), and scipy.io.loadmat (the voxel
file).  An error models a missing or unreadable file. -/
structure FileSystem where
  readBytes : String → Except String (List Nat)
  readLines : String → Except String (List String)
  loadmat : String → Except String (List (String × NDArray))

/-- The feature dictionary create_tf_example assembles, before the final
tf.train.Features construction: the image-metadata fields, then the mask,
mesh, voxel, camera, and bounding-box updates, in the source's order.  The
class label entry is the raw category value, inserted without
convert_to_feature. -/
def create_feature_dict (fs : FileSystem) (image : AnnotationData) :
    Except String (List (String × DictVal)) := do
  let img_height := image.img_size.1
  let img_width := image.img_size.2
  let encoded_img ← fs.readBytes (joinPath image.pix3d_dir image.img)
  let img_format := if pyIn "jpg" image.img || pyIn "jpeg" image.img then "jpg" else "png"
  let feature_dict :=
    image_info_to_feature_dict img_height img_width image.img image.image_id
      encoded_img img_format
  let encoded_mask ← fs.readBytes (joinPath image.pix3d_dir image.mask)
  let maskF ← convert_to_feature (PyVal.bytes encoded_mask) Option.none
  let feature_dict := dictUpdate feature_dict [("image/object/mask", DictVal.feat maskF)]
  let objLines ← fs.readLines (joinPath image.pix3d_dir image.model)
  let (model_vertices, model_faces) ← parse_obj_file objLines
  let vertF ← convert_to_feature model_vertices Option.none
  let faceF ← convert_to_feature model_faces Option.none
  let feature_dict := dictUpdate feature_dict
    [("model/vertices", DictVal.feat vertF), ("model/faces", DictVal.feat faceF)]
  let matDict ← fs.loadmat (joinPath image.pix3d_dir image.voxel)
  let (voxel_indices, voxel_shape) ← parse_voxel_file matDict
  let viF ← convert_to_feature (PyVal.ndarray (np_indices_array voxel_indices)) Option.none
  let vsF ← convert_to_feature (PyVal.list (voxel_shape.map (fun n => PyVal.int (n : ℤ)))) Option.none
  let feature_dict := dictUpdate feature_dict
    [("model/voxel_indices", DictVal.feat viF), ("model/voxel_shape", DictVal.feat vsF)]
  let rotF ← convert_to_feature image.rot_mat Option.none
  let transF ← convert_to_feature image.trans_mat Option.none
  let intrinstic_mat : List ℚ :=
    [image.focal_length * (img_width / 32), img_width / 2, img_height / 2]
  let intrF ← convert_to_feature (PyVal.list (intrinstic_mat.map PyVal.float)) Option.none
  let feature_dict := dictUpdate feature_dict
    [("camera/rot_mat", DictVal.feat rotF),
     ("camera/trans_mat", DictVal.feat transF),
     ("camera/intrinstic_mat", DictVal.feat intrF)]
  let xmin := image.bbox.1 / img_width
  let ymin := image.bbox.2.1 / img_height
  let xmax := image.bbox.2.2.1 / img_width
  let ymax := image.bbox.2.2.2 / img_height
  let is_crowd : ℤ := 0
  let xminF ← convert_to_feature (PyVal.list [PyVal.float xmin]) Option.none
  let yminF ← convert_to_feature (PyVal.list [PyVal.float ymin]) Option.none
  let xmaxF ← convert_to_feature (PyVal.list [PyVal.float xmax]) Option.none
  let ymaxF ← convert_to_feature (PyVal.list [PyVal.float ymax]) Option.none
  let crowdF ← convert_to_feature (PyVal.list [PyVal.int is_crowd]) Option.none
  let feature_dict := dictUpdate feature_dict
    [("image/object/bbox/xmin", DictVal.feat xminF),
     ("image/object/bbox/ymin", DictVal.feat yminF),
     ("image/object/bbox/xmax", DictVal.feat xmaxF),
     ("image/object/bbox/ymax", DictVal.feat ymaxF),
     ("image/object/class/label", DictVal.raw image.category),
     ("image/object/is_crowd", DictVal.feat crowdF)]
  return feature_dict

/-- Embedding of create_tf_example: assemble the feature dictionary, build
the tf.train.Example from it (which type-checks every entry), and return it
with the skip count 0. -/
def create_tf_example (fs : FileSystem) (image : AnnotationData) :
    Except String (List (String × Feature) × ℤ) := do
  let feature_dict ← create_feature_dict fs image
  let ex ← toFeatures feature_dict
  return (ex, 0)

/-- The floats a well-formed vertex line carries, token by token. -/
def vertexOf (l : String) : List ℚ := (lineTokens l).filterMap pyFloat?

/-- The integers a well-formed face line carries: for each token, the part
before the first slash as an integer. -/
def faceOf (l : String) : List ℤ :=
  (lineTokens l).filterMap (fun t => pyInt? (faceFirstIndex t))

/-- Well-formed mesh text: every token of every vertex line converts as a
Python float, and on every face line the part before the first slash of
every token converts as a Python int. -/
def objWellFormed (lines : List String) : Prop :=
  ∀ l ∈ lines,
    (isVertexLine l = true → ∀ t ∈ lineTokens l, (pyFloat? t).isSome = true)
    ∧ (isFaceLine l = true → ∀ t ∈ lineTokens l, (pyInt? (faceFirstIndex t)).isSome = true)

/-- A concrete occupancy array of shape (1, 2, 3), fully occupied. -/
def voxelBox123 : NDArray := { shape := [1, 2, 3], data := fun _ => 1 }

/-- A concrete occupancy array of shape (1, 2, 3) with exactly the cell
(0, 1, 2) occupied. -/
def voxelSample : NDArray :=
  { shape := [1, 2, 3], data := fun ix => if ix = [0, 1, 2] then 1 else 0 }

/-- A concrete occupancy array of rank 4. -/
def voxelRank4 : NDArray := { shape := [1, 1, 1, 1], data := fun _ => 1 }

/-- A concrete occupancy array of rank 2. -/
def voxelRank2 : NDArray := { shape := [2, 2], data := fun _ => 1 }

/-- A concrete file system with a valid image, mask, mesh file and voxel
file behind every path. -/
def fsEx : FileSystem :=
  { readBytes := fun _ => Except.ok [137, 80],
    readLines := fun _ =>
      Except.ok ["v 1.0 2.0 3.0\n", "v 4.0 5.0 6.0\n", "f 1/2 2/3 1/1\n"],
    loadmat := fun _ =>
      Except.ok [("voxel",
        { shape := [2, 2, 2], data := fun ix => if ix = [0, 1, 0] then 1 else 0 })] }

/-- A concrete annotation in the shape the Pix3D annotation file provides:
the category is the class name string, the image is 1512 wide and 2016
high, the focal length is 36. -/
def annEx : AnnotationData :=
  { img := "img/bed/0001.png",
    img_size := (2016, 1512),
    image_id := 0,
    pix3d_dir := "pix3d",
    mask := "mask/bed/0001.png",
    model := "model/bed/model.obj",
    voxel := "model/bed/voxel.mat",
    rot_mat := PyVal.list
      [PyVal.list [PyVal.float 1, PyVal.float 0],
       PyVal.list [PyVal.float 0, PyVal.float 1]],
    trans_mat := PyVal.list [PyVal.float 1, PyVal.float 2, PyVal.float 3],
    focal_length := 36,
    bbox := (10, 20, 110, 220),
    category := PyVal.str "bed" }

/-- Casting a list of Python ints to an int64 array is the identity on the
underlying integers. -/
lemma mapM_int64_cast_ints (l : List ℤ) :
    (l.map PyVal.int).mapM np_int64_cast = Except.ok l := by
  induction l with
  | nil => rfl
  | cons a l ih =>
    simp only [List.map_cons, List.mapM_cons, np_int64_cast, ih]
    rfl

/-- Casting a list of Python floats to a float32 array is the identity on
the modelled rational values. -/
lemma mapM_float32_cast_floats (l : List ℚ) :
    (l.map PyVal.float).mapM np_float32_cast = Except.ok l := by
  induction l with
  | nil => rfl
  | cons a l ih =>
    simp only [List.map_cons, List.mapM_cons, np_float32_cast, ih]
    rfl

/-- Collecting a list of Python byte strings into a BytesList keeps each
byte string raw. -/
lemma mapM_expectBytes_bytes (l : List (List Nat)) :
    (l.map PyVal.bytes).mapM expectBytes = Except.ok (l.map BytesVal.raw) := by
  induction l with
  | nil => rfl
  | cons a l ih =>
    simp only [List.map_cons, List.mapM_cons, expectBytes, ih]
    rfl

/-- C4: with no explicit value_type, convert_to_feature infers the encoding
from the value's first element when the value is a list, and encodes:
a list of byte strings as a bytes list, a list of integers as an int64
list, a list of floats as a float32 list, a scalar byte string as bytes,
a scalar integer as int64, a scalar float as float, a scalar text string as
its UTF-8 bytes, a nested list (given it forms a tensor) or a
multi-dimensional array as one serialized-tensor byte blob carrying the
value, and None as the empty feature with no value. -/
theorem C4_inference_and_encoding :
    (∀ (x : PyVal) (xs ys : List PyVal),
      inferred_value_type (PyVal.list (x :: xs)) = inferred_value_type (PyVal.list (x :: ys)))
    ∧ (∀ (b : List Nat) (bs : List (List Nat)),
      convert_to_feature (PyVal.list ((b :: bs).map PyVal.bytes)) Option.none
        = Except.ok (Feature.bytesList ((b :: bs).map BytesVal.raw)))
    ∧ (∀ (n : ℤ) (ns : List ℤ),
      convert_to_feature (PyVal.list ((n :: ns).map PyVal.int)) Option.none
        = Except.ok (Feature.int64List (n :: ns)))
    ∧ (∀ (q : ℚ) (qs : List ℚ),
      convert_to_feature (PyVal.list ((q :: qs).map PyVal.float)) Option.none
        = Except.ok (Feature.floatList (q :: qs)))
    ∧ (∀ bs : List Nat,
      convert_to_feature (PyVal.bytes bs) Option.none
        = Except.ok (Feature.bytesList [BytesVal.raw bs]))
    ∧ (∀ n : ℤ,
      convert_to_feature (PyVal.int n) Option.none = Except.ok (Feature.int64List [n]))
    ∧ (∀ q : ℚ,
      convert_to_feature (PyVal.float q) Option.none = Except.ok (Feature.floatList [q]))
    ∧ (∀ s : String,
      convert_to_feature (PyVal.str s) Option.none
        = Except.ok (Feature.bytesList [BytesVal.utf8 s]))
    ∧ (∀ (zs rest : List PyVal) (sh : List Nat),
      tensorShape (PyVal.list (PyVal.list zs :: rest)) = Option.some sh →
      convert_to_feature (PyVal.list (PyVal.list zs :: rest)) Option.none
        = Except.ok (Feature.bytesList
            [BytesVal.serializedTensor (PyVal.list (PyVal.list zs :: rest))]))
    ∧ (∀ a : NDArray,
      convert_to_feature (PyVal.ndarray a) Option.none
        = Except.ok (Feature.bytesList [BytesVal.serializedTensor (PyVal.ndarray a)]))
    ∧ convert_to_feature PyVal.none Option.none = Except.ok Feature.empty := by
  refine ⟨fun x xs ys => rfl, ?_, ?_, ?_, fun bs => rfl, fun n => rfl, fun q => rfl,
    fun s => rfl, ?_, fun a => rfl, rfl⟩
  · intro b bs
    simp only [convert_to_feature, inferred_value_type, firstElement, inferBaseType,
      pyIsList, convert_with_type, List.map_cons]
    simp only [List.mapM_cons, expectBytes, mapM_expectBytes_bytes bs]
    rfl
  · intro n ns
    simp only [convert_to_feature, inferred_value_type, firstElement, inferBaseType,
      pyIsList, convert_with_type, np_asarray_int64, List.map_cons]
    simp only [List.mapM_cons, np_int64_cast, mapM_int64_cast_ints ns]
    rfl
  · intro q qs
    simp only [convert_to_feature, inferred_value_type, firstElement, inferBaseType,
      pyIsList, convert_with_type, np_asarray_float32, List.map_cons]
    simp only [List.mapM_cons, np_float32_cast, mapM_float32_cast_floats qs]
    rfl
  · intro zs rest sh h
    simp only [convert_to_feature, inferred_value_type, firstElement, inferBaseType,
      pyIsList, convert_with_type, serialize_tensor, h]
    rfl

/-- Witness for C4: the nested-list clause at the concrete nested list
[[1]], whose tensor shape is (1, 1). -/
theorem C4_inference_and_encoding_witness :
    tensorShape (PyVal.list [PyVal.list [PyVal.int 1]]) = Option.some [1, 1]
    ∧ convert_to_feature (PyVal.list [PyVal.list [PyVal.int 1]]) Option.none
        = Except.ok (Feature.bytesList
            [BytesVal.serializedTensor (PyVal.list [PyVal.list [PyVal.int 1]])]) :=
  ⟨by rfl,
   C4_inference_and_encoding.2.2.2.2.2.2.2.2.1 [PyVal.int 1] [] [1, 1] (by rfl)⟩

/-- C5: with no explicit value_type, every value outside the supported
shapes is an encoding error, never silently coerced: a scalar of an
unsupported type is a ValueError from the isinstance chain, a non-empty
list whose first element is of an unsupported type likewise, and a
non-empty list whose first element is a text string, None, or an ndarray
lands on an unhandled inferred tag and is a ValueError from the dispatch. -/
theorem C5_unsupported_values_error :
    (∀ t : String,
      convert_to_feature (PyVal.other t) Option.none
        = Except.error ("ValueError: Cannot convert type " ++ t ++ " to feature"))
    ∧ (∀ (t : String) (rest : List PyVal),
      convert_to_feature (PyVal.list (PyVal.other t :: rest)) Option.none
        = Except.error ("ValueError: Cannot convert type " ++ t ++ " to feature"))
    ∧ (∀ (s : String) (rest : List PyVal),
      convert_to_feature (PyVal.list (PyVal.str s :: rest)) Option.none
        = Except.error "ValueError: Unknown value_type parameter - str_list")
    ∧ (∀ rest : List PyVal,
      convert_to_feature (PyVal.list (PyVal.none :: rest)) Option.none
        = Except.error "ValueError: Unknown value_type parameter - none_list")
    ∧ (∀ (a : NDArray) (rest : List PyVal),
      convert_to_feature (PyVal.list (PyVal.ndarray a :: rest)) Option.none
        = Except.error "ValueError: Unknown value_type parameter - ndarray_list") :=
  ⟨fun t => rfl, fun t rest => rfl, fun s rest => rfl, fun rest => rfl,
   fun a rest => rfl⟩

/-- Counterexample for C6: convert_to_feature on the empty list with no
explicit value_type does not resolve to an encoded field. -/
theorem C6_counterexample :
    (convert_to_feature (PyVal.list []) Option.none).isOk = false := rfl

/-- C6 (amended): convert_to_feature applied to the empty list with no
explicit value_type crashes with an IndexError while inspecting the first
element; the ambiguous empty-list case is an undocumented crash, not an
encoded field. -/
theorem C6_empty_list_crashes :
    convert_to_feature (PyVal.list []) Option.none
      = Except.error "IndexError: list index out of range" := rfl

/-- Bind in the Except monad reaches a success only through a success of
the first computation. -/
lemma except_bind_ok {α β : Type} {x : Except String α} {f : α → Except String β}
    {b : β} (h : x >>= f = Except.ok b) :
    ∃ a, x = Except.ok a ∧ f a = Except.ok b := by
  cases x with
  | error e => simp [Bind.bind, Except.bind] at h
  | ok a => exact ⟨a, rfl, by simpa [Bind.bind, Except.bind] using h⟩

/-- A computation that reports isOk is a success. -/
lemma isOk_exists {α : Type} {x : Except String α} (h : x.isOk = true) :
    ∃ a, x = Except.ok a := by
  cases x with
  | error e => simp [Except.isOk, Except.toBool] at h
  | ok a => exact ⟨a, rfl⟩

/-- A computation that does not report isOk is an error. -/
lemma isOk_false_exists {α : Type} {x : Except String α} (h : x.isOk = false) :
    ∃ e, x = Except.error e := by
  cases x with
  | error e => exact ⟨e, rfl⟩
  | ok a => simp [Except.isOk, Except.toBool] at h

/-- Membership in the row-major index enumeration is exactly pointwise
boundedness by the shape. -/
lemma mem_allIndices {s ix : List Nat} :
    ix ∈ allIndices s ↔ List.Forall₂ (fun i n => i < n) ix s := by
  induction s generalizing ix with
  | nil =>
    simp only [allIndices, List.mem_singleton]
    constructor
    · rintro rfl; exact List.Forall₂.nil
    · intro h; cases h; rfl
  | cons n rest ih =>
    simp only [allIndices, List.mem_flatten, List.mem_map]
    constructor
    · rintro ⟨l, ⟨i, hi, rfl⟩, hx⟩
      obtain ⟨tl, htl, rfl⟩ := List.mem_map.mp hx
      exact List.Forall₂.cons (List.mem_range.mp hi) (ih.mp htl)
    · intro h
      cases h with
      | cons hlt htail =>
        refine ⟨_, ⟨_, List.mem_range.mpr hlt, rfl⟩, ?_⟩
        exact List.mem_map.mpr ⟨_, ih.mpr htail, rfl⟩

/-- Argwhere only looks at entries inside the shape: two arrays with the
same shape and the same in-bounds entries have the same argwhere list. -/
lemma np_argwhere_congr {x y : NDArray} (hs : x.shape = y.shape)
    (hd : ∀ ix ∈ allIndices x.shape, x.data ix = y.data ix) :
    np_argwhere x = np_argwhere y := by
  unfold np_argwhere
  rw [← hs]
  refine List.filter_congr ?_
  intro ix hix
  rw [hd ix hix]

/-- The shape of the transpose that swaps axes 1 and 2. -/
lemma np_transpose_12_shape (a : NDArray) (s0 s1 s2 : Nat) (r : List Nat)
    (h : a.shape = s0 :: s1 :: s2 :: r) :
    (np_transpose_12 a).shape = s0 :: s2 :: s1 :: r := by
  unfold np_transpose_12
  rw [h]

/-- The entries of the transpose that swaps axes 1 and 2. -/
lemma np_transpose_12_data (a : NDArray) (s0 s1 s2 : Nat) (r : List Nat)
    (h : a.shape = s0 :: s1 :: s2 :: r) (i0 i1 i2 : Nat) (ir : List Nat) :
    (np_transpose_12 a).data (i0 :: i1 :: i2 :: ir) = a.data (i0 :: i2 :: i1 :: ir) := by
  unfold np_transpose_12
  rw [h]

/-- The shape of the flip along axis 2. -/
lemma np_flip_axis2_shape (a : NDArray) (s0 s1 s2 : Nat) (r : List Nat)
    (h : a.shape = s0 :: s1 :: s2 :: r) :
    (np_flip_axis2 a).shape = s0 :: s1 :: s2 :: r := by
  unfold np_flip_axis2
  rw [h]

/-- The entries of the flip along axis 2. -/
lemma np_flip_axis2_data (a : NDArray) (s0 s1 s2 : Nat) (r : List Nat)
    (h : a.shape = s0 :: s1 :: s2 :: r) (i0 i1 i2 : Nat) (ir : List Nat) :
    (np_flip_axis2 a).data (i0 :: i1 :: i2 :: ir)
      = a.data (i0 :: i1 :: (s2 - 1 - i2) :: ir) := by
  unfold np_flip_axis2
  rw [h]

/-- On an array of rank at least 3, rot90 with k = 3 and axes = (1, 2) is
the flip along axis 2 of the transpose. -/
lemma np_rot90_axes12_k3 (a : NDArray) (s0 s1 s2 : Nat) (r : List Nat)
    (h : a.shape = s0 :: s1 :: s2 :: r) :
    np_rot90_axes12 a 3 = Except.ok (np_flip_axis2 (np_transpose_12 a)) := by
  unfold np_rot90_axes12
  rw [h]
  rfl

/-- On a mat dictionary holding an array of rank at least 3 under the voxel
key, parse_voxel_file succeeds with the argwhere indices and the shape of
the k = 3 rotation. -/
lemma parse_voxel_file_eq (mat : List (String × NDArray)) (arr : NDArray)
    (s0 s1 s2 : Nat) (r : List Nat)
    (hget : dictGet mat "voxel" = Except.ok arr) (hsh : arr.shape = s0 :: s1 :: s2 :: r) :
    parse_voxel_file mat
      = Except.ok (np_argwhere (np_flip_axis2 (np_transpose_12 arr)),
                   (np_flip_axis2 (np_transpose_12 arr)).shape) := by
  simp [parse_voxel_file, hget, np_rot90_axes12_k3 arr s0 s1 s2 r hsh,
    Bind.bind, Except.bind, pure, Except.pure]

/-- Counterexample for C2: on an occupancy array of shape (1, 2, 3) the
returned voxel_shape is (1, 3, 2), not the input array's shape. -/
theorem C2_counterexample :
    (parse_voxel_file [("voxel", voxelBox123)]).map Prod.snd = Except.ok [1, 3, 2]
    ∧ voxelBox123.shape = [1, 2, 3] := ⟨rfl, rfl⟩

/-- C2 (amended): for every 3-dimensional occupancy array of shape
(a, b, c), the voxel_shape parse_voxel_file returns is the 3-element shape
of the rotated grid, (a, c, b); it equals the input array's shape only when
the last two dimensions agree. -/
theorem C2_voxel_shape_is_rotated_shape (mat : List (String × NDArray))
    (arr : NDArray) (a b c : Nat)
    (hget : dictGet mat "voxel" = Except.ok arr) (hsh : arr.shape = [a, b, c]) :
    (parse_voxel_file mat).map Prod.snd = Except.ok [a, c, b] := by
  rw [parse_voxel_file_eq mat arr a b c [] hget hsh]
  have h1 := np_transpose_12_shape arr a b c [] hsh
  have h2 := np_flip_axis2_shape (np_transpose_12 arr) a c b [] h1
  simp [Except.map, h2]

/-- Witness for C2 (amended) at the concrete shape (1, 2, 3). -/
theorem C2_voxel_shape_is_rotated_shape_witness :
    (parse_voxel_file [("voxel", voxelBox123)]).map Prod.snd = Except.ok [1, 3, 2] :=
  C2_voxel_shape_is_rotated_shape [("voxel", voxelBox123)] voxelBox123 1 2 3 (by rfl) (by rfl)

/-- C3: for every 3-dimensional occupancy array, parse_voxel_file returns
exactly the argwhere list (indices in row-major order) of the strictly
positive cells of the array rotated by three 90 degree steps in the plane
of axes 1 and 2. -/
theorem C3_indices_are_rotated_argwhere (mat : List (String × NDArray))
    (arr : NDArray) (a b c : Nat)
    (hget : dictGet mat "voxel" = Except.ok arr) (hsh : arr.shape = [a, b, c]) :
    (parse_voxel_file mat).map Prod.fst
      = Except.ok (np_argwhere (np_rot90_once (np_rot90_once (np_rot90_once arr)))) := by
  rw [parse_voxel_file_eq mat arr a b c [] hget hsh]
  have hfa := np_flip_axis2_shape arr a b c [] hsh
  have ht1 := np_transpose_12_shape (np_flip_axis2 arr) a b c [] hfa
  have hf2 := np_flip_axis2_shape (np_rot90_once arr) a c b [] ht1
  have ht2 := np_transpose_12_shape (np_flip_axis2 (np_rot90_once arr)) a c b [] hf2
  have hf3 := np_flip_axis2_shape (np_rot90_once (np_rot90_once arr)) a b c [] ht2
  have ht3 := np_transpose_12_shape
    (np_flip_axis2 (np_rot90_once (np_rot90_once arr))) a b c [] hf3
  have hT := np_transpose_12_shape arr a b c [] hsh
  have hD := np_flip_axis2_shape (np_transpose_12 arr) a c b [] hT
  have harg : np_argwhere (np_flip_axis2 (np_transpose_12 arr))
      = np_argwhere (np_rot90_once (np_rot90_once (np_rot90_once arr))) := by
    refine np_argwhere_congr ?_ ?_
    · rw [hD]
      rw [show np_rot90_once (np_rot90_once (np_rot90_once arr))
            = np_transpose_12 (np_flip_axis2 (np_rot90_once (np_rot90_once arr))) from rfl]
      rw [ht3]
    · intro ix hix
      rw [hD] at hix
      have hb := mem_allIndices.mp hix
      obtain ⟨i, j, l, rfl, hi, hj, hl⟩ : ∃ i j l, ix = [i, j, l] ∧ i < a ∧ j < c ∧ l < b := by
        cases hb with
        | cons h1 h2 =>
          cases h2 with
          | cons h3 h4 =>
            cases h4 with
            | cons h5 h6 =>
              cases h6
              exact ⟨_, _, _, rfl, h1, h3, h5⟩
      rw [np_flip_axis2_data (np_transpose_12 arr) a c b [] hT i j l []]
      rw [np_transpose_12_data arr a b c [] hsh i j (b - 1 - l) []]
      rw [show np_rot90_once (np_rot90_once (np_rot90_once arr))
            = np_transpose_12 (np_flip_axis2 (np_rot90_once (np_rot90_once arr))) from rfl]
      rw [np_transpose_12_data (np_flip_axis2 (np_rot90_once (np_rot90_once arr)))
        a b c [] hf3 i j l []]
      rw [np_flip_axis2_data (np_rot90_once (np_rot90_once arr)) a b c [] ht2 i l j []]
      rw [show np_rot90_once (np_rot90_once arr)
            = np_transpose_12 (np_flip_axis2 (np_rot90_once arr)) from rfl]
      rw [np_transpose_12_data (np_flip_axis2 (np_rot90_once arr)) a c b [] hf2
        i l (c - 1 - j) []]
      rw [np_flip_axis2_data (np_rot90_once arr) a c b [] ht1 i (c - 1 - j) l []]
      rw [show np_rot90_once arr = np_transpose_12 (np_flip_axis2 arr) from rfl]
      rw [np_transpose_12_data (np_flip_axis2 arr) a b c [] hfa i (c - 1 - j) (b - 1 - l) []]
      rw [np_flip_axis2_data arr a b c [] hsh i (b - 1 - l) (c - 1 - j) []]
      have hjj : c - 1 - (c - 1 - j) = j := by omega
      rw [hjj]
  rw [harg]
  rfl

/-- Witness for C3 at a concrete (1, 2, 3) grid with one occupied cell. -/
theorem C3_indices_are_rotated_argwhere_witness :
    (parse_voxel_file [("voxel", voxelSample)]).map Prod.fst = Except.ok [[0, 2, 0]] := by
  rw [C3_indices_are_rotated_argwhere [("voxel", voxelSample)] voxelSample 1 2 3
    (by rfl) (by rfl)]
  rfl

/-- Counterexample for C9: parse_voxel_file succeeds on an array of rank 4,
so it does not fail on every array whose rank is not 3. -/
theorem C9_counterexample :
    parse_voxel_file [("voxel", voxelRank4)] = Except.ok ([[0, 0, 0, 0]], [1, 1, 1, 1])
    ∧ voxelRank4.shape.length ≠ 3 := ⟨rfl, by decide⟩

/-- C9 (amended): parse_voxel_file fails with a KeyError for every input in
which the key voxel is absent, and with an axes ValueError for every input
whose array under that key has rank below 3; on any array of rank at least
3 (including ranks above 3) it succeeds. -/
theorem C9_failure_conditions (mat : List (String × NDArray)) :
    (∀ e : String, dictGet mat "voxel" = Except.error e →
      parse_voxel_file mat = Except.error e)
    ∧ (∀ arr : NDArray, dictGet mat "voxel" = Except.ok arr →
      arr.shape.length < 3 →
      parse_voxel_file mat = Except.error "ValueError: Axes=(1,2) out of range")
    ∧ (∀ arr : NDArray, dictGet mat "voxel" = Except.ok arr →
      3 ≤ arr.shape.length → (parse_voxel_file mat).isOk = true) := by
  refine ⟨?_, ?_, ?_⟩
  · intro e h
    simp [parse_voxel_file, h, Bind.bind, Except.bind]
  · intro arr h hlen
    simp [parse_voxel_file, h, np_rot90_axes12, hlen, Bind.bind, Except.bind]
  · intro arr h hlen
    have hnot : ¬ arr.shape.length < 3 := by omega
    simp [parse_voxel_file, h, np_rot90_axes12, hnot, Bind.bind, Except.bind,
      pure, Except.pure, Except.isOk, Except.toBool]

/-- Witness for C9 (amended): the missing key, a rank-2 array, and a rank-3
array, each at a concrete input. -/
theorem C9_failure_conditions_witness :
    parse_voxel_file [] = Except.error "KeyError: voxel"
    ∧ parse_voxel_file [("voxel", voxelRank2)]
        = Except.error "ValueError: Axes=(1,2) out of range"
    ∧ (parse_voxel_file [("voxel", voxelBox123)]).isOk = true :=
  ⟨(C9_failure_conditions []).1 "KeyError: voxel" (by rfl),
   (C9_failure_conditions [("voxel", voxelRank2)]).2.1 voxelRank2 (by rfl) (by decide),
   (C9_failure_conditions [("voxel", voxelBox123)]).2.2 voxelBox123 (by rfl) (by decide)⟩

/-- The vertex token loop succeeds, on the converted tokens, when every
token converts. -/
lemma exceptMapM_float_ok (ts : List (List Char))
    (h : ∀ t ∈ ts, (pyFloat? t).isSome = true) :
    exceptMapM floatTokenToExcept ts = Except.ok (ts.filterMap pyFloat?) := by
  induction ts with
  | nil => rfl
  | cons t ts ih =>
    have ht := h t (List.mem_cons_self t ts)
    cases hg : pyFloat? t with
    | none => rw [hg] at ht; simp at ht
    | some q =>
      have ih2 := ih (fun u hu => h u (List.mem_cons_of_mem t hu))
      simp [exceptMapM, floatTokenToExcept, hg, ih2, List.filterMap_cons]

/-- The face token loop succeeds, on the converted leading parts, when
every token's leading part converts. -/
lemma exceptMapM_face_ok (ts : List (List Char))
    (h : ∀ t ∈ ts, (pyInt? (faceFirstIndex t)).isSome = true) :
    exceptMapM faceTokenToExcept ts
      = Except.ok (ts.filterMap (fun t => pyInt? (faceFirstIndex t))) := by
  induction ts with
  | nil => rfl
  | cons t ts ih =>
    have ht := h t (List.mem_cons_self t ts)
    cases hg : pyInt? (faceFirstIndex t) with
    | none => rw [hg] at ht; simp at ht
    | some n =>
      have ih2 := ih (fun u hu => h u (List.mem_cons_of_mem t hu))
      simp [exceptMapM, faceTokenToExcept, hg, ih2, List.filterMap_cons]

/-- The vertex token loop succeeds exactly when every token converts. -/
lemma exceptMapM_float_isOk_iff (ts : List (List Char)) :
    (exceptMapM floatTokenToExcept ts).isOk = true
      ↔ ∀ t ∈ ts, (pyFloat? t).isSome = true := by
  induction ts with
  | nil => simp [exceptMapM, Except.isOk, Except.toBool]
  | cons t ts ih =>
    cases hg : pyFloat? t with
    | none =>
      constructor
      · intro h
        simp [exceptMapM, floatTokenToExcept, hg, Except.isOk, Except.toBool] at h
      · intro h
        have := h t (List.mem_cons_self t ts)
        rw [hg] at this
        simp at this
    | some q =>
      cases hrest : exceptMapM floatTokenToExcept ts with
      | error e =>
        have hts : ¬ ∀ u ∈ ts, (pyFloat? u).isSome = true := by
          intro hall
          rw [← ih, hrest] at hall
          simp [Except.isOk, Except.toBool] at hall
        constructor
        · intro h
          simp [exceptMapM, floatTokenToExcept, hg, hrest,
            Except.isOk, Except.toBool] at h
        · intro h
          exact absurd (fun u hu => h u (List.mem_cons_of_mem t hu)) hts
      | ok bs =>
        have hts : ∀ u ∈ ts, (pyFloat? u).isSome = true := by
          rw [← ih, hrest]
          rfl
        constructor
        · intro _ u hu
          rcases List.mem_cons.mp hu with rfl | hu2
          · rw [hg]; rfl
          · exact hts u hu2
        · intro _
          simp [exceptMapM, floatTokenToExcept, hg, hrest,
            Except.isOk, Except.toBool]

/-- The face token loop succeeds exactly when every token's leading part
converts. -/
lemma exceptMapM_face_isOk_iff (ts : List (List Char)) :
    (exceptMapM faceTokenToExcept ts).isOk = true
      ↔ ∀ t ∈ ts, (pyInt? (faceFirstIndex t)).isSome = true := by
  induction ts with
  | nil => simp [exceptMapM, Except.isOk, Except.toBool]
  | cons t ts ih =>
    cases hg : pyInt? (faceFirstIndex t) with
    | none =>
      constructor
      · intro h
        simp [exceptMapM, faceTokenToExcept, hg, Except.isOk, Except.toBool] at h
      · intro h
        have := h t (List.mem_cons_self t ts)
        rw [hg] at this
        simp at this
    | some n =>
      cases hrest : exceptMapM faceTokenToExcept ts with
      | error e =>
        have hts : ¬ ∀ u ∈ ts, (pyInt? (faceFirstIndex u)).isSome = true := by
          intro hall
          rw [← ih, hrest] at hall
          simp [Except.isOk, Except.toBool] at hall
        constructor
        · intro h
          simp [exceptMapM, faceTokenToExcept, hg, hrest,
            Except.isOk, Except.toBool] at h
        · intro h
          exact absurd (fun u hu => h u (List.mem_cons_of_mem t hu)) hts
      | ok bs =>
        have hts : ∀ u ∈ ts, (pyInt? (faceFirstIndex u)).isSome = true := by
          rw [← ih, hrest]
          rfl
        constructor
        · intro _ u hu
          rcases List.mem_cons.mp hu with rfl | hu2
          · rw [hg]; rfl
          · exact hts u hu2
        · intro _
          simp [exceptMapM, faceTokenToExcept, hg, hrest,
            Except.isOk, Except.toBool]

/-- A well-formed vertex line parses to its token floats. -/
lemma parseVertexLine_ok (l : String)
    (h : ∀ t ∈ lineTokens l, (pyFloat? t).isSome = true) :
    parseVertexLine l = Except.ok (vertexOf l) :=
  exceptMapM_float_ok (lineTokens l) h

/-- A well-formed face line parses to its leading group integers. -/
lemma parseFaceLine_ok (l : String)
    (h : ∀ t ∈ lineTokens l, (pyInt? (faceFirstIndex t)).isSome = true) :
    parseFaceLine l = Except.ok (faceOf l) :=
  exceptMapM_face_ok (lineTokens l) h

/-- A line cannot be both a vertex line and a face line. -/
lemma not_face_of_vertex {l : String} (hv : isVertexLine l = true) :
    isFaceLine l = false := by
  have hx : l.take 2 = "v " := by simpa [isVertexLine] using hv
  simp [isFaceLine, hx]

/-- On well-formed mesh text, the parse loop returns exactly the parsed
vertex lines and the parsed face lines, in file order. -/
lemma parse_obj_lists_eq (lines : List String) (h : objWellFormed lines) :
    parse_obj_lists lines
      = Except.ok ((lines.filter isVertexLine).map vertexOf,
                   (lines.filter isFaceLine).map faceOf) := by
  induction lines with
  | nil => rfl
  | cons l ls ih =>
    have hl := h l (List.mem_cons_self l ls)
    have ih2 := ih (fun u hu => h u (List.mem_cons_of_mem l hu))
    by_cases hv : isVertexLine l
    · have hfc := not_face_of_vertex hv
      simp only [parse_obj_lists, if_pos hv, parseVertexLine_ok l (hl.1 hv), ih2,
        Bind.bind, Except.bind, pure, Except.pure]
      simp [List.filter_cons, hv, hfc]
    · by_cases hfc : isFaceLine l
      · simp only [parse_obj_lists, if_neg hv, if_pos hfc,
          parseFaceLine_ok l (hl.2 hfc), ih2,
          Bind.bind, Except.bind, pure, Except.pure]
        simp [List.filter_cons, hv, hfc]
      · simp only [parse_obj_lists, if_neg hv, if_neg hfc, ih2]
        simp [List.filter_cons, hv, hfc]

/-- A successful run of the parse loop requires every vertex and face line
to tokenize into valid numbers. -/
lemma objWellFormed_of_parse_isOk (lines : List String)
    (h : (parse_obj_lists lines).isOk = true) : objWellFormed lines := by
  induction lines with
  | nil => intro l hl; simp at hl
  | cons l ls ih =>
    by_cases hv : isVertexLine l
    · cases hV : parseVertexLine l with
      | error e =>
        have hx : parse_obj_lists (l :: ls) = Except.error e := by
          simp [parse_obj_lists, if_pos hv, hV, Bind.bind, Except.bind]
        rw [hx] at h
        simp [Except.isOk, Except.toBool] at h
      | ok v =>
        cases hR : parse_obj_lists ls with
        | error e =>
          have hx : parse_obj_lists (l :: ls) = Except.error e := by
            simp [parse_obj_lists, if_pos hv, hV, hR, Bind.bind, Except.bind]
          rw [hx] at h
          simp [Except.isOk, Except.toBool] at h
        | ok p =>
          have hwfls := ih (by rw [hR]; rfl)
          intro u hu
          rcases List.mem_cons.mp hu with rfl | hu2
          · refine ⟨fun _ => ?_, fun hfc => ?_⟩
            · exact (exceptMapM_float_isOk_iff (lineTokens u)).mp (by
                rw [show exceptMapM floatTokenToExcept (lineTokens u) = Except.ok v from hV]
                rfl)
            · rw [not_face_of_vertex hv] at hfc
              cases hfc
          · exact hwfls u hu2
    · by_cases hfc : isFaceLine l
      · cases hF : parseFaceLine l with
        | error e =>
          have hx : parse_obj_lists (l :: ls) = Except.error e := by
            simp [parse_obj_lists, if_neg hv, if_pos hfc, hF, Bind.bind, Except.bind]
          rw [hx] at h
          simp [Except.isOk, Except.toBool] at h
        | ok f =>
          cases hR : parse_obj_lists ls with
          | error e =>
            have hx : parse_obj_lists (l :: ls) = Except.error e := by
              simp [parse_obj_lists, if_neg hv, if_pos hfc, hF, hR, Bind.bind, Except.bind]
            rw [hx] at h
            simp [Except.isOk, Except.toBool] at h
          | ok p =>
            have hwfls := ih (by rw [hR]; rfl)
            intro u hu
            rcases List.mem_cons.mp hu with rfl | hu2
            · refine ⟨fun hvv => ?_, fun _ => ?_⟩
              · rw [hvv] at hv
                cases hv rfl
              · exact (exceptMapM_face_isOk_iff (lineTokens u)).mp (by
                  rw [show exceptMapM faceTokenToExcept (lineTokens u) = Except.ok f from hF]
                  rfl)
            · exact hwfls u hu2
      · have hx : parse_obj_lists (l :: ls) = parse_obj_lists ls := by
          simp [parse_obj_lists, if_neg hv, if_neg hfc]
        rw [hx] at h
        have hwfls := ih h
        intro u hu
        rcases List.mem_cons.mp hu with rfl | hu2
        · refine ⟨fun hvv => ?_, fun hff => ?_⟩
          · rw [hvv] at hv
            cases hv rfl
          · rw [hff] at hfc
            cases hfc rfl
        · exact hwfls u hu2

/-- C7: on well-formed mesh text, the parse returns exactly one vertex per
vertex line and one face per face line, in file order, ignoring every other
line; each vertex is the list of floats of its line's tokens, and each face
is, for each token, the integer before the first slash. -/
theorem C7_well_formed_mesh_parse (lines : List String) (h : objWellFormed lines) :
    parse_obj_lists lines
      = Except.ok ((lines.filter isVertexLine).map vertexOf,
                   (lines.filter isFaceLine).map faceOf)
    ∧ ((lines.filter isVertexLine).map vertexOf).length
        = (lines.filter isVertexLine).length
    ∧ ((lines.filter isFaceLine).map faceOf).length
        = (lines.filter isFaceLine).length
    ∧ parse_obj_file lines
      = Except.ok
          (PyVal.ndarray (np_array_2d ((lines.filter isVertexLine).map vertexOf)),
           PyVal.ndarray (np_array_2d (((lines.filter isFaceLine).map faceOf).map
             (fun f => f.map (fun n => (n : ℚ)))))) := by
  refine ⟨parse_obj_lists_eq lines h, by simp, by simp, ?_⟩
  simp [parse_obj_file, parse_obj_lists_eq lines h, Bind.bind, Except.bind,
    pure, Except.pure]

/-- Witness for C7 on a concrete three-line mesh file: one vertex line, one
ignored normal line, one face line with slash groups. -/
theorem C7_well_formed_mesh_parse_witness :
    objWellFormed ["v 1.0 2.0 3.0\n", "vn 0 0 1\n", "f 6/8 5/7 4/6\n"]
    ∧ parse_obj_lists ["v 1.0 2.0 3.0\n", "vn 0 0 1\n", "f 6/8 5/7 4/6\n"]
        = Except.ok ([[1, 2, 3]], [[6, 5, 4]]) := by
  have hwf : objWellFormed ["v 1.0 2.0 3.0\n", "vn 0 0 1\n", "f 6/8 5/7 4/6\n"] := by
    unfold objWellFormed
    decide
  refine ⟨hwf, ?_⟩
  rw [(C7_well_formed_mesh_parse ["v 1.0 2.0 3.0\n", "vn 0 0 1\n", "f 6/8 5/7 4/6\n"]
    hwf).1]
  show Except.ok ([vertexOf "v 1.0 2.0 3.0\n"], [faceOf "f 6/8 5/7 4/6\n"])
    = Except.ok ([[1, 2, 3]], [[6, 5, 4]])
  have ht1 : lineTokens "v 1.0 2.0 3.0\n"
      = [['1', '.', '0'], ['2', '.', '0'], ['3', '.', '0', '\n']] := by rfl
  have ht2 : lineTokens "f 6/8 5/7 4/6\n"
      = [['6', '/', '8'], ['5', '/', '7'], ['4', '/', '6', '\n']] := by rfl
  simp +decide [vertexOf, faceOf, ht1, ht2, faceFirstIndex, splitOnChar,
    pyFloat?, pyInt?, takeDigits, parseSign, natOfDigits, isPySpace,
    List.filterMap]

/-- C8: parse_obj_file raises a parse error on every input with a vertex
line holding a token that is not a float, or a face line holding a token
whose leading group is not an integer; it returns successfully only when
every vertex and face line tokenizes into valid numbers. -/
theorem C8_parse_error_on_bad_tokens (lines : List String) :
    (¬ objWellFormed lines → ∃ e, parse_obj_file lines = Except.error e)
    ∧ ((parse_obj_file lines).isOk = true → objWellFormed lines) := by
  have key : (parse_obj_file lines).isOk = true → objWellFormed lines := by
    intro hok
    obtain ⟨res, hres⟩ := isOk_exists hok
    unfold parse_obj_file at hres
    obtain ⟨p, hp, _⟩ := except_bind_ok hres
    exact objWellFormed_of_parse_isOk lines (by rw [hp]; rfl)
  constructor
  · intro hnw
    cases hx : parse_obj_file lines with
    | error e => exact ⟨e, rfl⟩
    | ok res =>
      exact absurd (key (by rw [hx]; rfl)) hnw
  · exact key

/-- Witness for C8: a vertex line with a non-numeric token errors, and a
parse success certifies well-formedness. -/
theorem C8_parse_error_on_bad_tokens_witness :
    (∃ e, parse_obj_file ["v 1.0 x\n"] = Except.error e)
    ∧ objWellFormed ["v 2.0\n"] :=
  ⟨(C8_parse_error_on_bad_tokens ["v 1.0 x\n"]).1 (by unfold objWellFormed; decide),
   (C8_parse_error_on_bad_tokens ["v 2.0\n"]).2 (by rfl)⟩

/-- The successful feature dictionary in full: the image-metadata entries
followed by the mask, mesh, voxel, camera, bounding-box, label, and crowd
entries, with every derived value in place; the class label entry is the
raw category value. -/
lemma create_feature_dict_shape (fs : FileSystem) (ann : AnnotationData)
    (d : List (String × DictVal)) (h : create_feature_dict fs ann = Except.ok d) :
    ∃ (encoded_img encoded_mask : List Nat) (mva mfa : NDArray)
      (vi : List (List Nat)) (vsF rotF transF : Feature),
      d = [("image/height", DictVal.feat (Feature.int64List [ratTrunc ann.img_size.1])),
           ("image/width", DictVal.feat (Feature.int64List [ratTrunc ann.img_size.2])),
           ("image/filename", DictVal.feat (Feature.bytesList [BytesVal.utf8 ann.img])),
           ("image/source_id", DictVal.feat (Feature.bytesList
             [BytesVal.utf8 (toString ann.image_id)])),
           ("image/encoded", DictVal.feat (Feature.bytesList [BytesVal.raw encoded_img])),
           ("image/format", DictVal.feat (Feature.bytesList [BytesVal.utf8
             (if pyIn "jpg" ann.img || pyIn "jpeg" ann.img then "jpg" else "png")])),
           ("image/object/mask", DictVal.feat (Feature.bytesList [BytesVal.raw encoded_mask])),
           ("model/vertices", DictVal.feat (Feature.bytesList
             [BytesVal.serializedTensor (PyVal.ndarray mva)])),
           ("model/faces", DictVal.feat (Feature.bytesList
             [BytesVal.serializedTensor (PyVal.ndarray mfa)])),
           ("model/voxel_indices", DictVal.feat (Feature.bytesList
             [BytesVal.serializedTensor (PyVal.ndarray (np_indices_array vi))])),
           ("model/voxel_shape", DictVal.feat vsF),
           ("camera/rot_mat", DictVal.feat rotF),
           ("camera/trans_mat", DictVal.feat transF),
           ("camera/intrinstic_mat", DictVal.feat (Feature.floatList
             [ann.focal_length * (ann.img_size.2 / 32), ann.img_size.2 / 2,
              ann.img_size.1 / 2])),
           ("image/object/bbox/xmin", DictVal.feat (Feature.floatList
             [ann.bbox.1 / ann.img_size.2])),
           ("image/object/bbox/ymin", DictVal.feat (Feature.floatList
             [ann.bbox.2.1 / ann.img_size.1])),
           ("image/object/bbox/xmax", DictVal.feat (Feature.floatList
             [ann.bbox.2.2.1 / ann.img_size.2])),
           ("image/object/bbox/ymax", DictVal.feat (Feature.floatList
             [ann.bbox.2.2.2 / ann.img_size.1])),
           ("image/object/class/label", DictVal.raw ann.category),
           ("image/object/is_crowd", DictVal.feat (Feature.int64List [0]))] := by
  unfold create_feature_dict at h
  obtain ⟨encoded_img, h1, h⟩ := except_bind_ok h
  obtain ⟨encoded_mask, h2, h⟩ := except_bind_ok h
  obtain ⟨maskF, h3, h⟩ := except_bind_ok h
  obtain ⟨objLines, h4, h⟩ := except_bind_ok h
  obtain ⟨⟨mv, mf⟩, h5, h⟩ := except_bind_ok h
  obtain ⟨vertF, h6, h⟩ := except_bind_ok h
  obtain ⟨faceF, h7, h⟩ := except_bind_ok h
  obtain ⟨matDict, h8, h⟩ := except_bind_ok h
  obtain ⟨⟨vi, vsh⟩, h9, h⟩ := except_bind_ok h
  obtain ⟨viF, h10, h⟩ := except_bind_ok h
  obtain ⟨vsF, h11, h⟩ := except_bind_ok h
  obtain ⟨rotF, h12, h⟩ := except_bind_ok h
  obtain ⟨transF, h13, h⟩ := except_bind_ok h
  obtain ⟨intrF, h14, h⟩ := except_bind_ok h
  obtain ⟨xminF, h15, h⟩ := except_bind_ok h
  obtain ⟨yminF, h16, h⟩ := except_bind_ok h
  obtain ⟨xmaxF, h17, h⟩ := except_bind_ok h
  obtain ⟨ymaxF, h18, h⟩ := except_bind_ok h
  obtain ⟨crowdF, h19, h⟩ := except_bind_ok h
  unfold parse_obj_file at h5
  obtain ⟨⟨vls, fls⟩, h5a, h5b⟩ := except_bind_ok h5
  have h5c : (PyVal.ndarray (np_array_2d vls),
      PyVal.ndarray (np_array_2d (fls.map (fun f => f.map (fun n => (n : ℚ))))))
      = (mv, mf) := Except.ok.inj h5b
  injection h5c with hmv hmf2
  subst hmv
  subst hmf2
  have e3 : maskF = Feature.bytesList [BytesVal.raw encoded_mask] := (Except.ok.inj h3).symm
  subst e3
  have e6 : vertF = Feature.bytesList
      [BytesVal.serializedTensor (PyVal.ndarray (np_array_2d vls))] := (Except.ok.inj h6).symm
  subst e6
  have e7 : faceF = Feature.bytesList
      [BytesVal.serializedTensor (PyVal.ndarray
        (np_array_2d (fls.map (fun f => f.map (fun n => (n : ℚ))))))] := (Except.ok.inj h7).symm
  subst e7
  have e10 : viF = Feature.bytesList
      [BytesVal.serializedTensor (PyVal.ndarray (np_indices_array vi))] := (Except.ok.inj h10).symm
  subst e10
  have e14 : intrF = Feature.floatList
      [ann.focal_length * (ann.img_size.2 / 32), ann.img_size.2 / 2, ann.img_size.1 / 2] :=
    (Except.ok.inj h14).symm
  subst e14
  have e15 : xminF = Feature.floatList [ann.bbox.1 / ann.img_size.2] := (Except.ok.inj h15).symm
  subst e15
  have e16 : yminF = Feature.floatList [ann.bbox.2.1 / ann.img_size.1] := (Except.ok.inj h16).symm
  subst e16
  have e17 : xmaxF = Feature.floatList [ann.bbox.2.2.1 / ann.img_size.2] := (Except.ok.inj h17).symm
  subst e17
  have e18 : ymaxF = Feature.floatList [ann.bbox.2.2.2 / ann.img_size.1] := (Except.ok.inj h18).symm
  subst e18
  have e19 : crowdF = Feature.int64List [0] := (Except.ok.inj h19).symm
  subst e19
  obtain rfl := Except.ok.inj h
  refine ⟨encoded_img, encoded_mask, np_array_2d vls,
    np_array_2d (fls.map (fun f => f.map (fun n => (n : ℚ)))), vi, vsF, rotF, transF, ?_⟩
  rfl

/-- C10: whenever the feature dictionary is assembled for an annotation
with focal length f, image width W and height H, its camera/intrinstic_mat
entry is the 3-element float list [f * (W / 32), W / 2, H / 2]. -/
theorem C10_camera_intrinsics (fs : FileSystem) (ann : AnnotationData)
    (h : (create_feature_dict fs ann).isOk = true) :
    (create_feature_dict fs ann).map (fun d => dictLookup d "camera/intrinstic_mat")
      = Except.ok (Option.some (DictVal.feat (Feature.floatList
          [ann.focal_length * (ann.img_size.2 / 32), ann.img_size.2 / 2,
           ann.img_size.1 / 2]))) := by
  obtain ⟨d, hd⟩ := isOk_exists h
  obtain ⟨ei, em, mva, mfa, vi, vsF, rotF, transF, rfl⟩ :=
    create_feature_dict_shape fs ann d hd
  rw [hd]
  rfl

/-- Witness for C10 at the concrete annotation with W = 1512, H = 2016 and
focal length 36: the intrinsic vector is [1701, 756, 1008]. -/
theorem C10_camera_intrinsics_witness :
    (create_feature_dict fsEx annEx).isOk = true
    ∧ (create_feature_dict fsEx annEx).map
        (fun d => dictLookup d "camera/intrinstic_mat")
        = Except.ok (Option.some (DictVal.feat
            (Feature.floatList [1701, 756, 1008]))) := by
  have hok : (create_feature_dict fsEx annEx).isOk = true := by rfl
  refine ⟨hok, ?_⟩
  rw [C10_camera_intrinsics fsEx annEx hok]
  norm_num [annEx]

/-- Whenever the feature dictionary assembles, building the Example fails
with a TypeError: the class label entry holds a raw value, not a
tf.train.Feature. -/
lemma create_tf_example_TypeError (fs : FileSystem) (ann : AnnotationData)
    (h : (create_feature_dict fs ann).isOk = true) :
    create_tf_example fs ann
      = Except.error
          "TypeError: Features entry at key image/object/class/label is not a Feature" := by
  obtain ⟨d, hd⟩ := isOk_exists h
  obtain ⟨ei, em, mva, mfa, vi, vsF, rotF, transF, rfl⟩ :=
    create_feature_dict_shape fs ann d hd
  unfold create_tf_example
  rw [hd]
  rfl

/-- C1 (code bug): at a concrete valid annotation whose category is the
class name, the assembled dictionary stores the raw category value, not an
int64 feature, under image/object/class/label, and building the Example
then fails with a TypeError; no Example with an int64 class label is ever
written. -/
theorem C1_class_label_not_int64 :
    (create_feature_dict fsEx annEx).map
        (fun d => dictLookup d "image/object/class/label")
      = Except.ok (Option.some (DictVal.raw (PyVal.str "bed")))
    ∧ create_tf_example fsEx annEx
      = Except.error
          "TypeError: Features entry at key image/object/class/label is not a Feature" := by
  have hok : (create_feature_dict fsEx annEx).isOk = true := by rfl
  constructor
  · obtain ⟨d, hd⟩ := isOk_exists hok
    obtain ⟨ei, em, mva, mfa, vi, vsF, rotF, transF, rfl⟩ :=
      create_feature_dict_shape fsEx annEx d hd
    rw [hd]
    rfl
  · exact create_tf_example_TypeError fsEx annEx hok
